import Mathlib

/-!
# SafeWay geo-alert (`app.js`): geofence evaluation

A shallow embedding of the geofence part of `SafeWay_Web_GeoAlert/app.js`:
the haversine distance `getDistance`, the zone list `unsafeZones`, the set
`alertedZones`, `addZone`, the delete and clear handlers, `showAlert` and the
`watchPosition` callback of `startWatch`.

JavaScript numbers are modelled by real numbers for `getDistance` and by an
arbitrary linearly ordered commutative ring for the comparison logic of the
callback, which only uses `<=`, `>`, `+ 30` and the truthiness of a number.

`getDistance` is the exact-arithmetic reading of lines 125-136: the rounding of
IEEE doubles and `NaN` are not modelled. The two agree on what is proved about
symmetry, about the distance of a point to itself and at the sample points the
evaluations below use; they differ where rounding moves the haversine term out of
`[0, 1]`, which exact arithmetic never does (`exact_haversine_bounds`) and which
the program does at some antipodal points, where the exact term is `1`
(`haversineA_antipodal`).
-/

namespace SafeWay

/-! ## Distance calculator -/

/-- Two-argument arctangent `Math.atan2(y, x)` over the reals: the angle of the
point `(x, y)`, in `(-π, π]`, with `atan2 0 0 = 0`. -/
noncomputable def atan2 (y x : ℝ) : ℝ := Complex.arg ⟨x, y⟩

/-- The haversine term `a` of `getDistance` (lines 127-133). -/
noncomputable def haversineA (lat1 lon1 lat2 lon2 : ℝ) : ℝ :=
  let φ1 := lat1 * Real.pi / 180
  let φ2 := lat2 * Real.pi / 180
  let Δφ := (lat2 - lat1) * Real.pi / 180
  let Δl := (lon2 - lon1) * Real.pi / 180
  Real.sin (Δφ / 2) * Real.sin (Δφ / 2) +
    Real.cos φ1 * Real.cos φ2 * Real.sin (Δl / 2) * Real.sin (Δl / 2)

/-- The function `getDistance(lat1, lon1, lat2, lon2)` (lines 125-136). -/
noncomputable def getDistance (lat1 lon1 lat2 lon2 : ℝ) : ℝ :=
  let R : ℝ := 6371e3
  let a := haversineA lat1 lon1 lat2 lon2
  let c := 2 * atan2 (Real.sqrt a) (Real.sqrt (1 - a))
  R * c

/-! ## Zone store -/

/-- An entry of `unsafeZones`: the object `{name, lat, lng, radius}` of line 67. -/
structure Zone (α : Type) where
  name : String
  lat : α
  lng : α
  radius : α
deriving DecidableEq, Repr

/-- The expression `radius || parseInt(radiusInput.value) || 150` (lines 60, 67, 163).
`radius` is `none` when the argument is omitted, `radiusInput` is the result of
`parseInt(radiusInput.value)` with `none` for `NaN`. A number is falsy exactly when
it is `0`. -/
def radiusOrDefault {α : Type} [LinearOrderedCommRing α] (radius : Option α)
    (radiusInput : Option Int) : α :=
  let fallback : α :=
    match radiusInput with
    | some n => if n ≠ 0 then (n : α) else 150
    | none => 150
  match radius with
  | some r => if r ≠ 0 then r else fallback
  | none => fallback

/-- The two module-level variables the geofence logic reads and writes:
`unsafeZones` (line 12) and `alertedZones` (line 14). The set of names is a list;
`has` is membership, `add` appends a name that is absent, `delete` removes the name. -/
structure App (α : Type) where
  unsafeZones : List (Zone α)
  alertedZones : List String
deriving DecidableEq, Repr

/-- The function `addZone(name, lat, lng, radius)` (lines 66-71), with the parsed value
of the radius input as a parameter. -/
def addZone {α : Type} [LinearOrderedCommRing α] (radiusInput : Option Int) (s : App α)
    (name : String) (lat lng : α) (radius : Option α) : App α :=
  { s with unsafeZones :=
      s.unsafeZones ++ [{ name := name, lat := lat, lng := lng,
                          radius := radiusOrDefault radius radiusInput }] }

/-- The delete button of the zone at index `idx` (line 44): `unsafeZones.splice(idx,1)`. -/
def deleteZone {α : Type} (s : App α) (idx : Nat) : App α :=
  { s with unsafeZones := s.unsafeZones.eraseIdx idx }

/-- The confirmed clear-all handler (lines 103-109): `unsafeZones = []`. -/
def clearZones {α : Type} (s : App α) : App α :=
  { s with unsafeZones := [] }

/-! ## Alerting -/

/-- What an evaluation pass does that is visible from outside: `alert` is the body of
`showAlert` past its guard (modal, alarm, vibration; lines 140-145), `cleared` is the
execution of `alertedZones.delete(z.name)` (line 169). -/
inductive Event (α : Type) where
  | alert (zone : Zone α) (distance : α)
  | cleared (zone : Zone α)
deriving DecidableEq, Repr

/-- The zone an event is about. -/
def Event.zone {α : Type} : Event α → Zone α
  | Event.alert z _ => z
  | Event.cleared z => z

/-- The function `showAlert(zone, distance)` (lines 138-146) on the set of alerted names:
returns the new set and the alert raised, if any. -/
def showAlert {α : Type} (alertedZones : List String) (zone : Zone α) (distance : α) :
    List String × List (Event α) :=
  if zone.name ∈ alertedZones then (alertedZones, [])
  else (alertedZones ++ [zone.name], [Event.alert zone distance])

/-- The body of the `forEach` of the position callback (lines 161-172) for one zone `z`,
on the pair of the alerted names and the events raised so far in this pass. `dist` is
the distance function (the program uses `getDistance`). -/
def checkZone {α : Type} [LinearOrderedCommRing α] (dist : α → α → α → α → α)
    (radiusInput : Option Int) (uLat uLng : α)
    (acc : List String × List (Event α)) (z : Zone α) : List String × List (Event α) :=
  let d := dist uLat uLng z.lat z.lng
  let threshold := radiusOrDefault (some z.radius) radiusInput
  if d ≤ threshold then
    let r := showAlert acc.1 z d
    (r.1, acc.2 ++ r.2)
  else if z.name ∈ acc.1 ∧ d > threshold + 30 then
    (acc.1.filter (fun n => n ≠ z.name), acc.2 ++ [Event.cleared z])
  else acc

/-- The `forEach` over a zone list (lines 161-172): every zone, in list order. -/
def checkZones {α : Type} [LinearOrderedCommRing α] (dist : α → α → α → α → α)
    (radiusInput : Option Int) (uLat uLng : α) (zones : List (Zone α))
    (alertedZones : List String) : List String × List (Event α) :=
  zones.foldl (checkZone dist radiusInput uLat uLng) (alertedZones, [])

/-- The position callback of `startWatch` (lines 158-173) for the sample
`(uLat, uLng)`: the new state and the events of the pass. -/
def onPosition {α : Type} [LinearOrderedCommRing α] (dist : α → α → α → α → α)
    (radiusInput : Option Int) (s : App α) (uLat uLng : α) : App α × List (Event α) :=
  let r := checkZones dist radiusInput uLat uLng s.unsafeZones s.alertedZones
  ({ s with alertedZones := r.1 }, r.2)

/-- The callback of the program itself: `onPosition` with `getDistance`. -/
noncomputable def watchCallback (radiusInput : Option Int) (s : App ℝ) (uLat uLng : ℝ) :
    App ℝ × List (Event ℝ) :=
  onPosition getDistance radiusInput s uLat uLng

/-- A run of the callback on a sequence of samples: the final state and, per sample,
the events of its pass. -/
def onPositions {α : Type} [LinearOrderedCommRing α] (dist : α → α → α → α → α)
    (radiusInput : Option Int) (s : App α) : List (α × α) → App α × List (List (Event α))
  | [] => (s, [])
  | p :: ps =>
    let r := onPosition dist radiusInput s p.1 p.2
    let rest := onPositions dist radiusInput r.1 ps
    (rest.1, r.2 :: rest.2)

/-- A distance on integer coordinates used to evaluate the callback on concrete
inputs: the sum of the coordinate differences. -/
def gridDistance (lat1 lon1 lat2 lon2 : Int) : Int :=
  |lat2 - lat1| + |lon2 - lon1|

/-- The events of a pass that are about a zone called `n`. -/
def nameEvents {α : Type} (n : String) (evs : List (Event α)) : List (Event α) :=
  evs.filter (fun e => e.zone.name = n)

/-! ## The per-zone machine of the specification -/

/-- The two-state machine in the words of the specification (section 4.4): state
`false` is Inactive, `true` is Active; Inactive goes to Active on `d <= radius` with an
enter event, Active goes to Inactive on `d > radius + margin` with an exit event, and
nothing else changes the state or emits an event. -/
def specZoneStep {α : Type} [LinearOrderedCommRing α] (z : Zone α) (radius margin d : α)
    (active : Bool) : Bool × List (Event α) :=
  match active with
  | false => if d ≤ radius then (true, [Event.alert z d]) else (false, [])
  | true => if d > radius + margin then (false, [Event.cleared z]) else (true, [])

/-- The events of a pass in the words of the specification: the machine is run
separately on every zone, in list order, each from its own alerted state at the start
of the pass. The radius of the machine is the threshold the code computes for the zone,
which is the zone radius when that is a number other than `0`. -/
def specPassEvents {α : Type} [LinearOrderedCommRing α] (dist : α → α → α → α → α)
    (radiusInput : Option Int) (uLat uLng : α) (zones : List (Zone α))
    (alertedZones : List String) : List (Event α) :=
  zones.flatMap (fun z =>
    (specZoneStep z (radiusOrDefault (some z.radius) radiusInput) 30
      (dist uLat uLng z.lat z.lng) (decide (z.name ∈ alertedZones))).2)

/-- A run of the machine of the specification on a sequence of distances: the final
state and, per distance, the events of that step. -/
def specZoneRun {α : Type} [LinearOrderedCommRing α] (z : Zone α) (radius margin : α) :
    Bool → List α → Bool × List (List (Event α))
  | active, [] => (active, [])
  | active, d :: ds =>
    let r := specZoneStep z radius margin d active
    let rest := specZoneRun z radius margin r.1 ds
    (rest.1, r.2 :: rest.2)

/-- The zone of the scenario of the specification: `z1`, centre `(10, 10)`, radius 100. -/
def scenarioZone {α : Type} [LinearOrderedCommRing α] : Zone α :=
  { name := "z1", lat := 10, lng := 10, radius := 100 }

/-! ## Runs of the application -/

/-- What can happen to the two variables: a call of `addZone` (map click or add button),
a delete button, the clear-all button, or a position sample. Each carries the parsed
value of the radius input at that moment where the code reads it. -/
inductive Action (α : Type) where
  | addZone (radiusInput : Option Int) (name : String) (lat lng : α) (radius : Option α)
  | deleteZone (idx : Nat)
  | clearZones
  | position (radiusInput : Option Int) (uLat uLng : α)
deriving DecidableEq, Repr

/-- The state after one action. -/
def step {α : Type} [LinearOrderedCommRing α] (dist : α → α → α → α → α) (s : App α) :
    Action α → App α
  | Action.addZone ri name lat lng radius => addZone ri s name lat lng radius
  | Action.deleteZone idx => deleteZone s idx
  | Action.clearZones => clearZones s
  | Action.position ri uLat uLng => (onPosition dist ri s uLat uLng).1

/-- The state after a sequence of actions. -/
def run {α : Type} [LinearOrderedCommRing α] (dist : α → α → α → α → α) (s : App α)
    (acts : List (Action α)) : App α :=
  acts.foldl (step dist) s

/-- The state at load time: the zones read from storage (line 12) and an empty set of
alerted names (line 14). -/
def initial {α : Type} (zones : List (Zone α)) : App α :=
  { unsafeZones := zones, alertedZones := [] }

/-- Whether the action, taken in the state `s`, is not a removal of the last zone that
carries a name held in `alertedZones`: `addZone` and position samples always qualify;
a delete qualifies when the index is out of range, when the name of the zone at the
index is not in `alertedZones`, or when another zone of that name stays in the list; a
clear-all qualifies when `alertedZones` is empty. -/
def keepsAlertedNames {α : Type} (s : App α) : Action α → Bool
  | Action.addZone _ _ _ _ _ => true
  | Action.deleteZone idx =>
    match s.unsafeZones[idx]? with
    | none => true
    | some z =>
      decide (z.name ∈ s.alertedZones → ∃ y ∈ s.unsafeZones.eraseIdx idx, y.name = z.name)
  | Action.clearZones => decide (s.alertedZones = [])
  | Action.position _ _ _ => true

/-- Whether every action of the sequence, taken in the state the run has reached,
satisfies `keepsAlertedNames`. -/
def removalsKeepAlertedNames {α : Type} [LinearOrderedCommRing α]
    (dist : α → α → α → α → α) : App α → List (Action α) → Bool
  | _, [] => true
  | s, a :: as => keepsAlertedNames s a && removalsKeepAlertedNames dist (step dist s a) as

/-- Every alerted name is the name of a zone of the list. -/
def NamesKnown {α : Type} (s : App α) : Prop :=
  ∀ n ∈ s.alertedZones, ∃ z ∈ s.unsafeZones, z.name = n

instance {α : Type} (s : App α) : Decidable (NamesKnown s) := by
  unfold NamesKnown
  infer_instance

/-- Zones on integer coordinates used to evaluate the callback on concrete inputs:
two zones called `Zone`, 20 apart, and a zone of another name. -/
def firstZone : Zone Int := { name := "Zone", lat := 0, lng := 0, radius := 100 }

/-- The second zone called `Zone` on integer coordinates. -/
def secondZone : Zone Int := { name := "Zone", lat := 20, lng := 0, radius := 100 }

/-- A zone of another name on integer coordinates. -/
def homeZone : Zone Int := { name := "home", lat := 1000, lng := 0, radius := 100 }

/-- Two zones that both carry the default name `Zone` of the map click (line 77):
one at `(0, 0)`, one at `(0, 180)`, radius 100. -/
noncomputable def nearZone : Zone ℝ := { name := "Zone", lat := 0, lng := 0, radius := 100 }

/-- The second zone called `Zone`, on the far side of the globe. -/
noncomputable def farZone : Zone ℝ := { name := "Zone", lat := 0, lng := 180, radius := 100 }

/-! ## Lemmas on the distance calculator -/

theorem haversineA_comm (lat1 lon1 lat2 lon2 : ℝ) :
    haversineA lat1 lon1 lat2 lon2 = haversineA lat2 lon2 lat1 lon1 := by
  unfold haversineA
  have h1 : (lat2 - lat1) * Real.pi / 180 / 2 = -((lat1 - lat2) * Real.pi / 180 / 2) := by ring
  have h2 : (lon2 - lon1) * Real.pi / 180 / 2 = -((lon1 - lon2) * Real.pi / 180 / 2) := by ring
  simp only [h1, h2, Real.sin_neg]
  ring

theorem haversineA_eq (lat1 lon1 lat2 lon2 : ℝ) :
    haversineA lat1 lon1 lat2 lon2 =
      (1 - Real.cos (lat2 * Real.pi / 180 - lat1 * Real.pi / 180)) / 2 +
      (Real.cos (lat2 * Real.pi / 180 - lat1 * Real.pi / 180) +
        Real.cos (lat2 * Real.pi / 180 + lat1 * Real.pi / 180)) / 2 *
        ((1 - Real.cos ((lon2 - lon1) * Real.pi / 180)) / 2) := by
  unfold haversineA
  have hs : ∀ x : ℝ, Real.sin (x / 2) * Real.sin (x / 2) = (1 - Real.cos x) / 2 := by
    intro x
    have h := Real.sin_sq_eq_half_sub (x / 2)
    have hx : 2 * (x / 2) = x := by ring
    rw [hx] at h
    rw [← pow_two, h]
    ring
  have hc : Real.cos (lat1 * Real.pi / 180) * Real.cos (lat2 * Real.pi / 180) =
      (Real.cos (lat2 * Real.pi / 180 - lat1 * Real.pi / 180) +
        Real.cos (lat2 * Real.pi / 180 + lat1 * Real.pi / 180)) / 2 := by
    rw [Real.cos_sub, Real.cos_add]
    ring
  have hd : (lat2 - lat1) * Real.pi / 180 = lat2 * Real.pi / 180 - lat1 * Real.pi / 180 := by
    ring
  simp only []
  rw [mul_assoc (Real.cos _ * Real.cos _), hs, hs, hc, hd]

theorem haversineA_nonneg (lat1 lon1 lat2 lon2 : ℝ) :
    0 ≤ haversineA lat1 lon1 lat2 lon2 := by
  rw [haversineA_eq]
  have p1 := Real.cos_le_one (lat2 * Real.pi / 180 - lat1 * Real.pi / 180)
  have q1 := Real.neg_one_le_cos (lat2 * Real.pi / 180 + lat1 * Real.pi / 180)
  have u0 := Real.cos_le_one ((lon2 - lon1) * Real.pi / 180)
  have u1 := Real.neg_one_le_cos ((lon2 - lon1) * Real.pi / 180)
  nlinarith [mul_nonneg (sub_nonneg.2 p1) (show (0 : ℝ) ≤ 1 + Real.cos ((lon2 - lon1) * Real.pi / 180) by linarith),
    mul_nonneg (show (0 : ℝ) ≤ 1 + Real.cos (lat2 * Real.pi / 180 + lat1 * Real.pi / 180) by linarith)
      (sub_nonneg.2 u0)]

theorem haversineA_le_one (lat1 lon1 lat2 lon2 : ℝ) :
    haversineA lat1 lon1 lat2 lon2 ≤ 1 := by
  rw [haversineA_eq]
  have p1 := Real.neg_one_le_cos (lat2 * Real.pi / 180 - lat1 * Real.pi / 180)
  have q1 := Real.cos_le_one (lat2 * Real.pi / 180 + lat1 * Real.pi / 180)
  have u0 := Real.cos_le_one ((lon2 - lon1) * Real.pi / 180)
  have u1 := Real.neg_one_le_cos ((lon2 - lon1) * Real.pi / 180)
  nlinarith [mul_nonneg (show (0 : ℝ) ≤ 1 + Real.cos (lat2 * Real.pi / 180 - lat1 * Real.pi / 180) by linarith)
      (show (0 : ℝ) ≤ 1 + Real.cos ((lon2 - lon1) * Real.pi / 180) by linarith),
    mul_nonneg (sub_nonneg.2 q1) (sub_nonneg.2 u0)]

theorem atan2_nonneg_of_nonneg (y x : ℝ) (hy : 0 ≤ y) : 0 ≤ atan2 y x := by
  unfold atan2
  rw [Complex.arg_nonneg_iff]
  exact hy

theorem atan2_le_pi_div_two (y x : ℝ) (hx : 0 ≤ x) : atan2 y x ≤ Real.pi / 2 := by
  unfold atan2
  rw [Complex.arg_le_pi_div_two_iff]
  exact Or.inl hx

theorem atan2_zero_one : atan2 0 1 = 0 := by
  unfold atan2
  have h : (⟨1, 0⟩ : ℂ) = 1 := rfl
  rw [h, Complex.arg_one]

theorem atan2_sin_cos (θ : ℝ) (h0 : -Real.pi < θ) (h1 : θ ≤ Real.pi) :
    atan2 (Real.sin θ) (Real.cos θ) = θ := by
  unfold atan2
  have h : (⟨Real.cos θ, Real.sin θ⟩ : ℂ) = Complex.cos θ + Complex.sin θ * Complex.I := by
    apply Complex.ext
    · simp [← Complex.ofReal_cos, ← Complex.ofReal_sin]
    · simp [← Complex.ofReal_cos, ← Complex.ofReal_sin]
  rw [h]
  exact Complex.arg_cos_add_sin_mul_I ⟨h0, h1⟩

theorem getDistance_of_sin_sq (lat1 lon1 lat2 lon2 θ : ℝ) (h0 : 0 ≤ θ)
    (h1 : θ ≤ Real.pi / 2) (ha : haversineA lat1 lon1 lat2 lon2 = Real.sin θ ^ 2) :
    getDistance lat1 lon1 lat2 lon2 = 6371000 * (2 * θ) := by
  have hpi := Real.pi_pos
  have hs : 0 ≤ Real.sin θ := Real.sin_nonneg_of_nonneg_of_le_pi h0 (by linarith)
  have hc : 0 ≤ Real.cos θ := Real.cos_nonneg_of_neg_pi_div_two_le_of_le (by linarith) h1
  have e1 : Real.sqrt (Real.sin θ ^ 2) = Real.sin θ := Real.sqrt_sq hs
  have e2 : Real.sqrt (1 - Real.sin θ ^ 2) = Real.cos θ := by
    have : 1 - Real.sin θ ^ 2 = Real.cos θ ^ 2 := by
      have := Real.sin_sq_add_cos_sq θ
      linarith
    rw [this, Real.sqrt_sq hc]
  unfold getDistance
  simp only [ha, e1, e2, atan2_sin_cos θ (by linarith) (by linarith)]
  norm_num

theorem getDistance_comm (lat1 lon1 lat2 lon2 : ℝ) :
    getDistance lat1 lon1 lat2 lon2 = getDistance lat2 lon2 lat1 lon1 := by
  unfold getDistance
  rw [haversineA_comm]

/-- In exact arithmetic the haversine term of two antipodal points is exactly `1`, the
upper end of the interval on which `Math.sqrt(1 - a)` is defined. -/
theorem haversineA_antipodal (lat lon : ℝ) : haversineA lat lon (-lat) (lon + 180) = 1 := by
  unfold haversineA
  have h1 : (-lat - lat) * Real.pi / 180 / 2 = -(lat * Real.pi / 180) := by ring
  have h2 : (lon + 180 - lon) * Real.pi / 180 / 2 = Real.pi / 2 := by ring
  have h3 : -lat * Real.pi / 180 = -(lat * Real.pi / 180) := by ring
  simp only [h1, h2, h3, Real.sin_neg, Real.cos_neg, Real.sin_pi_div_two]
  have := Real.sin_sq_add_cos_sq (lat * Real.pi / 180)
  nlinarith

theorem getDistance_band_sample :
    getDistance 0 0.001 0 0 = 6371 * Real.pi / 180 := by
  have hpi := Real.pi_pos
  have ha : haversineA 0 0.001 0 0 = Real.sin (0.001 * Real.pi / 360) ^ 2 := by
    unfold haversineA
    have h : ((0 : ℝ) - 0.001) * Real.pi / 180 / 2 = -(0.001 * Real.pi / 360) := by ring
    simp only [h, Real.sin_neg]
    simp
    ring
  rw [getDistance_of_sin_sq 0 0.001 0 0 (0.001 * Real.pi / 360) (by positivity)
    (by nlinarith) ha]
  ring

theorem getDistance_band_sample_far :
    getDistance 0 0.001 0 180 = 6371000 * (Real.pi - 0.001 * Real.pi / 180) := by
  have hpi := Real.pi_pos
  have ha : haversineA 0 0.001 0 180 =
      Real.sin (Real.pi / 2 - 0.001 * Real.pi / 360) ^ 2 := by
    unfold haversineA
    have h : ((180 : ℝ) - 0.001) * Real.pi / 180 / 2 =
        Real.pi / 2 - 0.001 * Real.pi / 360 := by ring
    simp only [h]
    simp
    ring
  rw [getDistance_of_sin_sq 0 0.001 0 180 (Real.pi / 2 - 0.001 * Real.pi / 360)
    (by nlinarith) (by nlinarith) ha]
  ring

/-! ## Claims on the distance calculator -/

/-- C7: `getDistance` is symmetric in its two points, over real arithmetic. -/
theorem getDistance_symm (lat1 lon1 lat2 lon2 : ℝ) :
    getDistance lat1 lon1 lat2 lon2 = getDistance lat2 lon2 lat1 lon1 := by
  unfold getDistance
  rw [haversineA_comm]

/-- In exact arithmetic the haversine term `a` lies in `[0, 1]` for all coordinates and
the distance lies between `0` and `π * 6371000`. This does not carry over to the doubles
of the program, where rounding can give `a > 1`. -/
theorem exact_haversine_bounds (lat1 lon1 lat2 lon2 : ℝ) :
    0 ≤ haversineA lat1 lon1 lat2 lon2 ∧
    haversineA lat1 lon1 lat2 lon2 ≤ 1 ∧
    0 ≤ 1 - haversineA lat1 lon1 lat2 lon2 ∧
    0 ≤ getDistance lat1 lon1 lat2 lon2 ∧
    getDistance lat1 lon1 lat2 lon2 ≤ Real.pi * 6371000 := by
  have h0 := haversineA_nonneg lat1 lon1 lat2 lon2
  have h1 := haversineA_le_one lat1 lon1 lat2 lon2
  refine ⟨h0, h1, by linarith, ?_, ?_⟩
  · unfold getDistance
    have := atan2_nonneg_of_nonneg (Real.sqrt (haversineA lat1 lon1 lat2 lon2))
      (Real.sqrt (1 - haversineA lat1 lon1 lat2 lon2)) (Real.sqrt_nonneg _)
    simp only []
    norm_num
    linarith
  · unfold getDistance
    have := atan2_le_pi_div_two (Real.sqrt (haversineA lat1 lon1 lat2 lon2))
      (Real.sqrt (1 - haversineA lat1 lon1 lat2 lon2)) (Real.sqrt_nonneg _)
    simp only []
    norm_num
    linarith

theorem getDistance_same (lat lon : ℝ) : getDistance lat lon lat lon = 0 := by
  have ha : haversineA lat lon lat lon = 0 := by
    unfold haversineA
    simp
  unfold getDistance
  simp only [ha, Real.sqrt_zero, sub_zero, Real.sqrt_one, atan2_zero_one]
  norm_num

theorem getDistance_antipode : getDistance 0 0 0 180 = 6371000 * Real.pi := by
  have ha : haversineA 0 0 0 180 = 1 := by
    unfold haversineA
    have h : ((180 : ℝ) - 0) * Real.pi / 180 / 2 = Real.pi / 2 := by ring
    simp only [h, Real.sin_pi_div_two]
    simp
  have hI : atan2 1 0 = Real.pi / 2 := by
    unfold atan2
    have h : (⟨0, 1⟩ : ℂ) = Complex.I := rfl
    rw [h, Complex.arg_I]
  unfold getDistance
  simp only [ha, sub_self, Real.sqrt_zero, Real.sqrt_one, hI]
  norm_num
  ring

/-- C9: the distance from a point to itself is `0`. -/
theorem getDistance_self (lat lon : ℝ) : getDistance lat lon lat lon = 0 :=
  getDistance_same lat lon

/-! ## Lemmas on the evaluation pass -/

section Pass

variable {α : Type} [LinearOrderedCommRing α]

theorem radiusOrDefault_of_ne_zero (r : α) (ri : Option Int) (hr : r ≠ 0) :
    radiusOrDefault (some r) ri = r := by
  simp [radiusOrDefault, hr]

theorem radiusOrDefault_ne_zero (radius : Option α) (ri : Option Int) :
    radiusOrDefault radius ri ≠ 0 := by
  have h150 : (150 : α) ≠ 0 := by norm_num
  have hfb : (match ri with
      | some n => if n ≠ 0 then (n : α) else 150
      | none => 150) ≠ 0 := by
    cases ri with
    | none => exact h150
    | some n =>
      by_cases hn : n = 0
      · simp [hn]
      · simp [hn]
  unfold radiusOrDefault
  cases radius with
  | none => exact hfb
  | some r =>
    by_cases hr : r = 0
    · simpa [hr] using hfb
    · simp [hr]

theorem checkZone_enter (dist : α → α → α → α → α) (ri : Option Int) (uLat uLng : α)
    (acc : List String × List (Event α)) (z : Zone α)
    (hd : dist uLat uLng z.lat z.lng ≤ radiusOrDefault (some z.radius) ri)
    (hn : z.name ∉ acc.1) :
    checkZone dist ri uLat uLng acc z =
      (acc.1 ++ [z.name], acc.2 ++ [Event.alert z (dist uLat uLng z.lat z.lng)]) := by
  simp [checkZone, showAlert, hd, hn]

theorem checkZone_linger (dist : α → α → α → α → α) (ri : Option Int) (uLat uLng : α)
    (acc : List String × List (Event α)) (z : Zone α)
    (hd : dist uLat uLng z.lat z.lng ≤ radiusOrDefault (some z.radius) ri)
    (hn : z.name ∈ acc.1) :
    checkZone dist ri uLat uLng acc z = acc := by
  simp [checkZone, showAlert, hd, hn]

theorem checkZone_band (dist : α → α → α → α → α) (ri : Option Int) (uLat uLng : α)
    (acc : List String × List (Event α)) (z : Zone α)
    (h1 : radiusOrDefault (some z.radius) ri < dist uLat uLng z.lat z.lng)
    (h2 : dist uLat uLng z.lat z.lng ≤ radiusOrDefault (some z.radius) ri + 30) :
    checkZone dist ri uLat uLng acc z = acc := by
  simp [checkZone, not_le.2 h1, not_lt.2 h2]

theorem checkZone_exit (dist : α → α → α → α → α) (ri : Option Int) (uLat uLng : α)
    (acc : List String × List (Event α)) (z : Zone α)
    (h : radiusOrDefault (some z.radius) ri + 30 < dist uLat uLng z.lat z.lng)
    (hn : z.name ∈ acc.1) :
    checkZone dist ri uLat uLng acc z =
      (acc.1.filter (fun n => n ≠ z.name), acc.2 ++ [Event.cleared z]) := by
  have h1 : ¬ dist uLat uLng z.lat z.lng ≤ radiusOrDefault (some z.radius) ri := by
    intro hle
    have : radiusOrDefault (some z.radius) ri + 30 < radiusOrDefault (some z.radius) ri :=
      lt_of_lt_of_le h hle
    linarith
  simp [checkZone, h1, hn, h]

theorem checkZone_away (dist : α → α → α → α → α) (ri : Option Int) (uLat uLng : α)
    (acc : List String × List (Event α)) (z : Zone α)
    (h : radiusOrDefault (some z.radius) ri < dist uLat uLng z.lat z.lng)
    (hn : z.name ∉ acc.1) :
    checkZone dist ri uLat uLng acc z = acc := by
  simp [checkZone, not_le.2 h, hn]

theorem checkZone_view (dist : α → α → α → α → α) (ri : Option Int) (uLat uLng : α)
    (acc : List String × List (Event α)) (z : Zone α) :
    decide (z.name ∈ (checkZone dist ri uLat uLng acc z).1) =
      (specZoneStep z (radiusOrDefault (some z.radius) ri) 30
        (dist uLat uLng z.lat z.lng) (decide (z.name ∈ acc.1))).1 ∧
    (checkZone dist ri uLat uLng acc z).2 = acc.2 ++
      (specZoneStep z (radiusOrDefault (some z.radius) ri) 30
        (dist uLat uLng z.lat z.lng) (decide (z.name ∈ acc.1))).2 := by
  by_cases hn : z.name ∈ acc.1
  · by_cases hd : dist uLat uLng z.lat z.lng ≤ radiusOrDefault (some z.radius) ri
    · have hx : ¬ radiusOrDefault (some z.radius) ri + 30 < dist uLat uLng z.lat z.lng := by
        intro h
        have := lt_of_lt_of_le h hd
        linarith
      rw [checkZone_linger dist ri uLat uLng acc z hd hn]
      simp [specZoneStep, hn, hx]
    · by_cases hm : radiusOrDefault (some z.radius) ri + 30 < dist uLat uLng z.lat z.lng
      · rw [checkZone_exit dist ri uLat uLng acc z hm hn]
        simp [specZoneStep, hn, hm]
      · rw [checkZone_band dist ri uLat uLng acc z (not_le.1 hd) (not_lt.1 hm)]
        simp [specZoneStep, hn, hm]
  · by_cases hd : dist uLat uLng z.lat z.lng ≤ radiusOrDefault (some z.radius) ri
    · rw [checkZone_enter dist ri uLat uLng acc z hd hn]
      simp [specZoneStep, hn, hd]
    · rw [checkZone_away dist ri uLat uLng acc z (not_le.1 hd) hn]
      simp [specZoneStep, hn, hd]

theorem checkZone_events_named (dist : α → α → α → α → α) (ri : Option Int) (uLat uLng : α)
    (z : Zone α) (active : Bool) :
    nameEvents z.name (specZoneStep z (radiusOrDefault (some z.radius) ri) 30
        (dist uLat uLng z.lat z.lng) active).2 =
      (specZoneStep z (radiusOrDefault (some z.radius) ri) 30
        (dist uLat uLng z.lat z.lng) active).2 := by
  cases active <;> simp only [specZoneStep] <;> split_ifs <;> simp [nameEvents, Event.zone]

theorem checkZone_other (dist : α → α → α → α → α) (ri : Option Int) (uLat uLng : α)
    (acc : List String × List (Event α)) (z : Zone α) (n : String) (hne : z.name ≠ n) :
    decide (n ∈ (checkZone dist ri uLat uLng acc z).1) = decide (n ∈ acc.1) ∧
    nameEvents n (checkZone dist ri uLat uLng acc z).2 = nameEvents n acc.2 := by
  have hne2 : n ≠ z.name := fun h => hne h.symm
  unfold checkZone showAlert
  simp only []
  split_ifs <;> simp [nameEvents, Event.zone, hne, hne2]

theorem foldl_checkZone_other (dist : α → α → α → α → α) (ri : Option Int) (uLat uLng : α)
    (n : String) (zs : List (Zone α)) :
    ∀ acc : List String × List (Event α), (∀ z ∈ zs, z.name ≠ n) →
    decide (n ∈ (zs.foldl (checkZone dist ri uLat uLng) acc).1) = decide (n ∈ acc.1) ∧
    nameEvents n (zs.foldl (checkZone dist ri uLat uLng) acc).2 = nameEvents n acc.2 := by
  induction zs with
  | nil => intro acc _; simp
  | cons y ys ih =>
    intro acc h
    have hy : y.name ≠ n := h y (List.mem_cons_self _ _)
    have hys : ∀ z ∈ ys, z.name ≠ n := fun z hz => h z (List.mem_cons_of_mem _ hz)
    have h1 := checkZone_other dist ri uLat uLng acc y n hy
    have h2 := ih (checkZone dist ri uLat uLng acc y) hys
    rw [List.foldl_cons]
    exact ⟨h2.1.trans h1.1, h2.2.trans h1.2⟩

theorem foldl_checkZone_only (dist : α → α → α → α → α) (ri : Option Int) (uLat uLng : α)
    (z : Zone α) (zs : List (Zone α)) :
    ∀ acc : List String × List (Event α),
    zs.filter (fun y => y.name = z.name) = [z] →
    decide (z.name ∈ (zs.foldl (checkZone dist ri uLat uLng) acc).1) =
      (specZoneStep z (radiusOrDefault (some z.radius) ri) 30
        (dist uLat uLng z.lat z.lng) (decide (z.name ∈ acc.1))).1 ∧
    nameEvents z.name (zs.foldl (checkZone dist ri uLat uLng) acc).2 =
      nameEvents z.name acc.2 ++
      (specZoneStep z (radiusOrDefault (some z.radius) ri) 30
        (dist uLat uLng z.lat z.lng) (decide (z.name ∈ acc.1))).2 := by
  induction zs with
  | nil => intro acc h; simp at h
  | cons y ys ih =>
    intro acc h
    rw [List.foldl_cons]
    by_cases hy : y.name = z.name
    · rw [List.filter_cons_of_pos (by simpa using hy)] at h
      have hyz : y = z := (List.cons.inj h).1
      have hys : ∀ w ∈ ys, w.name ≠ z.name := by
        have hnil := (List.cons.inj h).2
        intro w hw hwz
        have : w ∈ ys.filter (fun y => y.name = z.name) :=
          List.mem_filter.2 ⟨hw, by simpa using hwz⟩
        rw [hnil] at this
        exact absurd this (List.not_mem_nil _)
      subst hyz
      have h1 := checkZone_view dist ri uLat uLng acc y
      have h2 := foldl_checkZone_other dist ri uLat uLng y.name ys
        (checkZone dist ri uLat uLng acc y) hys
      refine ⟨h2.1.trans h1.1, ?_⟩
      rw [h2.2, h1.2]
      unfold nameEvents
      rw [List.filter_append]
      congr 1
      exact checkZone_events_named dist ri uLat uLng y _
    · rw [List.filter_cons_of_neg (by simpa using hy)] at h
      have h1 := checkZone_other dist ri uLat uLng acc y z.name hy
      have h2 := ih (checkZone dist ri uLat uLng acc y) h
      rw [h1.1, h1.2] at h2
      exact h2

theorem onPosition_only (dist : α → α → α → α → α) (ri : Option Int) (s : App α)
    (z : Zone α) (uLat uLng : α)
    (hz : s.unsafeZones.filter (fun y => y.name = z.name) = [z]) :
    (onPosition dist ri s uLat uLng).1.unsafeZones = s.unsafeZones ∧
    decide (z.name ∈ (onPosition dist ri s uLat uLng).1.alertedZones) =
      (specZoneStep z (radiusOrDefault (some z.radius) ri) 30
        (dist uLat uLng z.lat z.lng) (decide (z.name ∈ s.alertedZones))).1 ∧
    nameEvents z.name (onPosition dist ri s uLat uLng).2 =
      (specZoneStep z (radiusOrDefault (some z.radius) ri) 30
        (dist uLat uLng z.lat z.lng) (decide (z.name ∈ s.alertedZones))).2 := by
  have h := foldl_checkZone_only dist ri uLat uLng z s.unsafeZones (s.alertedZones, []) hz
  refine ⟨rfl, h.1, ?_⟩
  have h2 := h.2
  simp only [nameEvents, List.filter_nil, List.nil_append] at h2
  exact h2

theorem onPositions_only (dist : α → α → α → α → α) (ri : Option Int) (z : Zone α)
    (ps : List (α × α)) :
    ∀ s : App α, s.unsafeZones.filter (fun y => y.name = z.name) = [z] →
    decide (z.name ∈ (onPositions dist ri s ps).1.alertedZones) =
      (specZoneRun z (radiusOrDefault (some z.radius) ri) 30 (decide (z.name ∈ s.alertedZones))
        (ps.map (fun p => dist p.1 p.2 z.lat z.lng))).1 ∧
    (onPositions dist ri s ps).2.map (nameEvents z.name) =
      (specZoneRun z (radiusOrDefault (some z.radius) ri) 30 (decide (z.name ∈ s.alertedZones))
        (ps.map (fun p => dist p.1 p.2 z.lat z.lng))).2 := by
  induction ps with
  | nil => intro s _; simp [onPositions, specZoneRun]
  | cons p ps ih =>
    intro s hz
    have h1 := onPosition_only dist ri s z p.1 p.2 hz
    have hz2 : (onPosition dist ri s p.1 p.2).1.unsafeZones.filter
        (fun y => y.name = z.name) = [z] := by rw [h1.1]; exact hz
    have h2 := ih (onPosition dist ri s p.1 p.2).1 hz2
    simp only [onPositions, specZoneRun, List.map_cons]
    rw [h1.2.1] at h2
    exact ⟨h2.1, by rw [h2.2, h1.2.2]⟩

theorem specZoneRun_append (z : Zone α) (radius margin : α) (xs : List α) :
    ∀ (active : Bool) (ys : List α),
    specZoneRun z radius margin active (xs ++ ys) =
      ((specZoneRun z radius margin (specZoneRun z radius margin active xs).1 ys).1,
       (specZoneRun z radius margin active xs).2 ++
       (specZoneRun z radius margin (specZoneRun z radius margin active xs).1 ys).2) := by
  induction xs with
  | nil => intro active ys; simp [specZoneRun]
  | cons x xs ih =>
    intro active ys
    rw [List.cons_append, specZoneRun, specZoneRun, ih]
    rfl

theorem specZoneRun_active (z : Zone α) (radius margin : α) (ds : List α)
    (h : ∀ d ∈ ds, d ≤ radius + margin) :
    specZoneRun z radius margin true ds = (true, List.replicate ds.length []) := by
  induction ds with
  | nil => simp [specZoneRun]
  | cons d ds ih =>
    have hd : ¬ radius + margin < d := not_lt.2 (h d (List.mem_cons_self _ _))
    have ih2 := ih (fun x hx => h x (List.mem_cons_of_mem _ hx))
    simp [specZoneRun, specZoneStep, hd, ih2, List.replicate_succ]

theorem specZoneRun_inactive (z : Zone α) (radius margin : α) (ds : List α)
    (h : ∀ d ∈ ds, radius < d) :
    specZoneRun z radius margin false ds = (false, List.replicate ds.length []) := by
  induction ds with
  | nil => simp [specZoneRun]
  | cons d ds ih =>
    have hd : ¬ d ≤ radius := not_le.2 (h d (List.mem_cons_self _ _))
    have ih2 := ih (fun x hx => h x (List.mem_cons_of_mem _ hx))
    simp [specZoneRun, specZoneStep, hd, ih2, List.replicate_succ]

theorem checkZone_names (dist : α → α → α → α → α) (ri : Option Int) (uLat uLng : α)
    (acc : List String × List (Event α)) (z : Zone α) (n : String)
    (h : n ∈ (checkZone dist ri uLat uLng acc z).1) : n ∈ acc.1 ∨ n = z.name := by
  unfold checkZone showAlert at h
  simp only [] at h
  split_ifs at h
  · exact Or.inl h
  · rcases List.mem_append.1 h with h | h
    · exact Or.inl h
    · exact Or.inr (by simpa using h)
  · exact Or.inl (List.mem_filter.1 h).1
  · exact Or.inl h

theorem foldl_checkZone_names (dist : α → α → α → α → α) (ri : Option Int) (uLat uLng : α)
    (zs : List (Zone α)) :
    ∀ (acc : List String × List (Event α)) (n : String),
    n ∈ (zs.foldl (checkZone dist ri uLat uLng) acc).1 →
    n ∈ acc.1 ∨ ∃ z ∈ zs, z.name = n := by
  induction zs with
  | nil => intro acc n h; exact Or.inl h
  | cons y ys ih =>
    intro acc n h
    rw [List.foldl_cons] at h
    rcases ih _ n h with h1 | ⟨z, hz, hzn⟩
    · rcases checkZone_names dist ri uLat uLng acc y n h1 with h2 | h2
      · exact Or.inl h2
      · exact Or.inr ⟨y, List.mem_cons_self _ _, h2.symm⟩
    · exact Or.inr ⟨z, List.mem_cons_of_mem _ hz, hzn⟩

theorem checkZone_within (dist : α → α → α → α → α) (ri : Option Int) (uLat uLng : α)
    (acc : List String × List (Event α)) (z : Zone α)
    (h : dist uLat uLng z.lat z.lng ≤ radiusOrDefault (some z.radius) ri + 30)
    (hn : z.name ∈ acc.1) :
    checkZone dist ri uLat uLng acc z = acc := by
  by_cases hd : dist uLat uLng z.lat z.lng ≤ radiusOrDefault (some z.radius) ri
  · exact checkZone_linger dist ri uLat uLng acc z hd hn
  · exact checkZone_band dist ri uLat uLng acc z (not_le.1 hd) h

theorem checkZone_same (dist : α → α → α → α → α) (ri : Option Int) (uLat uLng : α)
    (acc acc' : List String × List (Event α)) (z : Zone α)
    (h1 : decide (z.name ∈ acc.1) = decide (z.name ∈ acc'.1))
    (h2 : nameEvents z.name acc.2 = nameEvents z.name acc'.2) :
    decide (z.name ∈ (checkZone dist ri uLat uLng acc z).1) =
      decide (z.name ∈ (checkZone dist ri uLat uLng acc' z).1) ∧
    nameEvents z.name (checkZone dist ri uLat uLng acc z).2 =
      nameEvents z.name (checkZone dist ri uLat uLng acc' z).2 := by
  have v := checkZone_view dist ri uLat uLng acc z
  have v' := checkZone_view dist ri uLat uLng acc' z
  refine ⟨?_, ?_⟩
  · rw [v.1, v'.1, h1]
  · rw [v.2, v'.2, h1]
    unfold nameEvents at h2 ⊢
    rw [List.filter_append, List.filter_append, h2]

theorem foldl_checkZone_filter (dist : α → α → α → α → α) (ri : Option Int) (uLat uLng : α)
    (n : String) (zs : List (Zone α)) :
    ∀ acc acc' : List String × List (Event α),
    decide (n ∈ acc.1) = decide (n ∈ acc'.1) →
    nameEvents n acc.2 = nameEvents n acc'.2 →
    decide (n ∈ (zs.foldl (checkZone dist ri uLat uLng) acc).1) =
      decide (n ∈ ((zs.filter (fun y => y.name = n)).foldl
        (checkZone dist ri uLat uLng) acc').1) ∧
    nameEvents n (zs.foldl (checkZone dist ri uLat uLng) acc).2 =
      nameEvents n ((zs.filter (fun y => y.name = n)).foldl
        (checkZone dist ri uLat uLng) acc').2 := by
  induction zs with
  | nil => intro acc acc' h1 h2; exact ⟨h1, h2⟩
  | cons y ys ih =>
    intro acc acc' h1 h2
    rw [List.foldl_cons]
    by_cases hy : y.name = n
    · rw [List.filter_cons_of_pos (by simpa using hy), List.foldl_cons]
      subst hy
      have hs := checkZone_same dist ri uLat uLng acc acc' y h1 h2
      exact ih _ _ hs.1 hs.2
    · rw [List.filter_cons_of_neg (by simpa using hy)]
      have ho := checkZone_other dist ri uLat uLng acc y n hy
      exact ih _ _ (ho.1.trans h1) (ho.2.trans h2)

theorem onPosition_filter (dist : α → α → α → α → α) (ri : Option Int) (s : App α)
    (n : String) (ws : List (Zone α)) (uLat uLng : α)
    (hz : s.unsafeZones.filter (fun y => y.name = n) = ws) :
    (onPosition dist ri s uLat uLng).1.unsafeZones = s.unsafeZones ∧
    (n ∈ (onPosition dist ri s uLat uLng).1.alertedZones ↔
      n ∈ (ws.foldl (checkZone dist ri uLat uLng) (s.alertedZones, [])).1) ∧
    nameEvents n (onPosition dist ri s uLat uLng).2 =
      nameEvents n (ws.foldl (checkZone dist ri uLat uLng) (s.alertedZones, [])).2 := by
  have h := foldl_checkZone_filter dist ri uLat uLng n s.unsafeZones
    (s.alertedZones, []) (s.alertedZones, []) rfl rfl
  rw [hz] at h
  exact ⟨rfl, decide_eq_decide.1 h.1, h.2⟩

end Pass

/-! ## Lemmas on runs -/

theorem onPosition_namesKnown {α : Type} [LinearOrderedCommRing α] (dist : α → α → α → α → α) (ri : Option Int) (s : App α)
    (uLat uLng : α) (hs : NamesKnown s) : NamesKnown (onPosition dist ri s uLat uLng).1 := by
  intro n hn
  rcases foldl_checkZone_names dist ri uLat uLng s.unsafeZones (s.alertedZones, []) n hn
    with h | h
  · exact hs n h
  · exact h

theorem deleteZone_namesKnown_iff {α : Type} (s : App α) (idx : Nat) (hs : NamesKnown s) :
    NamesKnown (deleteZone s idx) ↔ keepsAlertedNames s (Action.deleteZone idx) = true := by
  unfold keepsAlertedNames
  cases hget : s.unsafeZones[idx]? with
  | none =>
    have hlen : s.unsafeZones.length ≤ idx := List.getElem?_eq_none_iff.1 hget
    have he : s.unsafeZones.eraseIdx idx = s.unsafeZones := List.eraseIdx_of_length_le hlen
    simp only [hget, iff_true]
    intro n hn
    obtain ⟨z, hz, hzn⟩ := hs n hn
    exact ⟨z, by simp only [deleteZone]; rw [he]; exact hz, hzn⟩
  | some w =>
    simp only [hget, decide_eq_true_eq]
    constructor
    · intro h hw
      exact h w.name hw
    · intro h n hn
      obtain ⟨z, hz, hzn⟩ := hs n hn
      obtain ⟨i, hi⟩ := List.mem_iff_getElem?.1 hz
      by_cases hik : i = idx
      · subst hik
        rw [hget] at hi
        have hwz : w = z := Option.some.inj hi
        subst hwz
        obtain ⟨y, hy, hyn⟩ := h (hzn ▸ hn)
        exact ⟨y, hy, hyn.trans hzn⟩
      · exact ⟨z, List.mem_eraseIdx_iff_getElem?.2 ⟨i, hik, hi⟩, hzn⟩

theorem clearZones_namesKnown_iff {α : Type} (s : App α) :
    NamesKnown (clearZones s) ↔ keepsAlertedNames s Action.clearZones = true := by
  unfold keepsAlertedNames
  simp only [decide_eq_true_eq]
  constructor
  · intro h
    cases hal : s.alertedZones with
    | nil => rfl
    | cons n ns =>
      obtain ⟨z, hz, _⟩ := h n (by simp [clearZones, hal])
      simp [clearZones] at hz
  · intro h n hn
    simp [clearZones, h] at hn

theorem step_namesKnown_iff {α : Type} [LinearOrderedCommRing α] (dist : α → α → α → α → α) (s : App α) (a : Action α)
    (hs : NamesKnown s) : NamesKnown (step dist s a) ↔ keepsAlertedNames s a = true := by
  cases a with
  | addZone ri name lat lng radius =>
    simp only [keepsAlertedNames, iff_true]
    intro n hn
    obtain ⟨z, hz, hzn⟩ := hs n hn
    exact ⟨z, List.mem_append_left _ hz, hzn⟩
  | deleteZone idx => exact deleteZone_namesKnown_iff s idx hs
  | clearZones => exact clearZones_namesKnown_iff s
  | position ri uLat uLng =>
    simp only [keepsAlertedNames, iff_true]
    exact onPosition_namesKnown dist ri s uLat uLng hs

theorem run_namesKnown {α : Type} [LinearOrderedCommRing α] (dist : α → α → α → α → α) (acts : List (Action α)) :
    ∀ s : App α, removalsKeepAlertedNames dist s acts = true → NamesKnown s →
      NamesKnown (run dist s acts) := by
  induction acts with
  | nil => intro s _ hs; exact hs
  | cons a as ih =>
    intro s h hs
    simp only [removalsKeepAlertedNames, Bool.and_eq_true] at h
    exact ih (step dist s a) h.2 ((step_namesKnown_iff dist s a hs).2 h.1)

/-! ## The evaluation pass for a zone of unshared name -/

/-- Exit and re-arming for a zone whose name no other zone carries: for a zone `z` of
radius `r` (a number other than `0`, so that the threshold is `r`) that is the only
zone of its name in the list and has not alerted, a sample
sequence that enters (`d <= r`), stays within `r + 30`, then moves to `d > r + 30`,
stays outside (`d > r`) and finally returns (`d <= r`) raises one alert on entry,
nothing while within the margin, exactly one clearing at the move beyond `r + 30`,
nothing while outside, and a new alert on re-entry. On the scenario (`r = 100`,
distances 50, 80, 120, 131, 50) the passes give alert, nothing, nothing, clearing,
alert. -/
theorem exit_once_then_rearm {α : Type} [LinearOrderedCommRing α]
    (dist : α → α → α → α → α) (ri : Option Int) :
    (∀ (zs : List (Zone α)) (al : List String) (z : Zone α) (p1 p2 p3 : α × α)
      (mids outs : List (α × α)),
      zs.filter (fun y => y.name = z.name) = [z] →
      z.radius ≠ 0 →
      z.name ∉ al →
      dist p1.1 p1.2 z.lat z.lng ≤ z.radius →
      (∀ p ∈ mids, dist p.1 p.2 z.lat z.lng ≤ z.radius + 30) →
      dist p2.1 p2.2 z.lat z.lng > z.radius + 30 →
      (∀ p ∈ outs, dist p.1 p.2 z.lat z.lng > z.radius) →
      dist p3.1 p3.2 z.lat z.lng ≤ z.radius →
      (onPositions dist ri { unsafeZones := zs, alertedZones := al }
          (p1 :: (mids ++ p2 :: (outs ++ [p3])))).2.map (nameEvents z.name) =
        [Event.alert z (dist p1.1 p1.2 z.lat z.lng)] ::
          (List.replicate mids.length [] ++ [Event.cleared z] ::
            (List.replicate outs.length [] ++
              [[Event.alert z (dist p3.1 p3.2 z.lat z.lng)]]))) ∧
    (∀ (q1 q2 q3 q4 q5 : α × α),
      dist q1.1 q1.2 10 10 = 50 → dist q2.1 q2.2 10 10 = 80 →
      dist q3.1 q3.2 10 10 = 120 → dist q4.1 q4.2 10 10 = 131 →
      dist q5.1 q5.2 10 10 = 50 →
      (onPositions dist ri { unsafeZones := [scenarioZone], alertedZones := [] }
          [q1, q2, q3, q4, q5]).2 =
        [[Event.alert scenarioZone 50], [], [], [Event.cleared scenarioZone],
         [Event.alert scenarioZone 50]]) := by
  constructor
  · intro zs al z p1 p2 p3 mids outs hz hr hal h1 hmid h2 hout h3
    have hthr : radiusOrDefault (some z.radius) ri = z.radius :=
      radiusOrDefault_of_ne_zero z.radius ri hr
    have h := (onPositions_only dist ri z (p1 :: (mids ++ p2 :: (outs ++ [p3])))
      { unsafeZones := zs, alertedZones := al } hz).2
    rw [h, hthr]
    have hA := specZoneRun_active z z.radius 30
      (mids.map (fun p => dist p.1 p.2 z.lat z.lng))
      (by
        intro d hd
        obtain ⟨p, hp, rfl⟩ := List.mem_map.1 hd
        exact hmid p hp)
    have hI := specZoneRun_inactive z z.radius 30
      (outs.map (fun p => dist p.1 p.2 z.lat z.lng))
      (by
        intro d hd
        obtain ⟨p, hp, rfl⟩ := List.mem_map.1 hd
        exact hout p hp)
    simp only [List.map_cons, List.map_append, List.map_nil, specZoneRun, hal,
      decide_False, specZoneStep, h1, if_true]
    rw [specZoneRun_append, hA]
    simp only [specZoneRun, specZoneStep, gt_iff_lt, h2, if_true]
    rw [specZoneRun_append, hI]
    simp [specZoneRun, specZoneStep, h3]
  · intro q1 q2 q3 q4 q5 h1 h2 h3 h4 h5
    simp [onPositions, onPosition, checkZones, checkZone, showAlert, radiusOrDefault,
      scenarioZone, h1, h2, h3, h4, h5]
    norm_num

/-- Evaluation of `exit_once_then_rearm` on integer coordinates with `gridDistance`: a
list of two zones and the samples at distances 50, 80, 120, 131, 190, 50 from `z1`. -/
theorem exit_once_then_rearm_witness :
    gridDistance 141 10 10 10 > 100 + 30 ∧
    (onPositions gridDistance none
        { unsafeZones := [{ name := "home", lat := 500, lng := 10, radius := 100 }, scenarioZone],
          alertedZones := [] }
        [(60, 10), (90, 10), (130, 10), (141, 10), (200, 10), (60, 10)]).2.map
        (nameEvents "z1") =
      [[Event.alert scenarioZone 50], [], [], [Event.cleared scenarioZone], [],
       [Event.alert scenarioZone 50]] ∧
    (onPositions gridDistance none { unsafeZones := [scenarioZone], alertedZones := [] }
        [(60, 10), (90, 10), (130, 10), (141, 10), (60, 10)]).2 =
      [[Event.alert scenarioZone 50], [], [], [Event.cleared scenarioZone],
       [Event.alert scenarioZone 50]] :=
  ⟨by decide,
   (exit_once_then_rearm gridDistance none).1
     [{ name := "home", lat := 500, lng := 10, radius := 100 }, scenarioZone] []
     scenarioZone (60, 10) (141, 10) (60, 10) [(90, 10), (130, 10)] [(200, 10)]
     (by decide) (by decide) (by decide) (by decide) (by decide) (by decide) (by decide)
     (by decide),
   (exit_once_then_rearm gridDistance none).2 (60, 10) (90, 10) (130, 10) (141, 10) (60, 10)
     (by decide) (by decide) (by decide) (by decide) (by decide)⟩

/-- The margin for a zone whose name no other zone carries: for a zone `z` whose radius
is a number other than `0` and a sample at a distance `d` with
`radius < d <= radius + 30`, the check of `z` changes nothing: the
set of alerted names and the events are those before the check; and in a pass over a
list in which `z` is the only zone of its name, when `z` is alerted it stays alerted
and the pass has no event about it (no clearing, no alert). -/
theorem band_changes_nothing {α : Type} [LinearOrderedCommRing α]
    (dist : α → α → α → α → α) (ri : Option Int) (uLat uLng : α) (z : Zone α)
    (hr : z.radius ≠ 0)
    (h1 : z.radius < dist uLat uLng z.lat z.lng)
    (h2 : dist uLat uLng z.lat z.lng ≤ z.radius + 30) :
    (∀ acc : List String × List (Event α), z.name ∈ acc.1 →
      checkZone dist ri uLat uLng acc z = acc) ∧
    (∀ (zs : List (Zone α)) (al : List String),
      zs.filter (fun y => y.name = z.name) = [z] → z.name ∈ al →
      z.name ∈ (onPosition dist ri { unsafeZones := zs, alertedZones := al }
        uLat uLng).1.alertedZones ∧
      nameEvents z.name (onPosition dist ri { unsafeZones := zs, alertedZones := al }
        uLat uLng).2 = []) := by
  have hthr : radiusOrDefault (some z.radius) ri = z.radius :=
    radiusOrDefault_of_ne_zero z.radius ri hr
  constructor
  · intro acc _
    exact checkZone_band dist ri uLat uLng acc z (by rw [hthr]; exact h1) (by rw [hthr]; exact h2)
  · intro zs al hz hal
    have h := onPosition_only dist ri { unsafeZones := zs, alertedZones := al } z uLat uLng hz
    have hx : ¬ z.radius + 30 < dist uLat uLng z.lat z.lng := not_lt.2 h2
    rw [hthr] at h
    simp only [hal, decide_True, specZoneStep, gt_iff_lt, hx, if_false] at h
    exact ⟨of_decide_eq_true h.2.1, h.2.2⟩

/-- Evaluation of `band_changes_nothing` on integer coordinates: radius 100, distance
115. -/
theorem band_changes_nothing_witness :
    (100 : Int) < gridDistance 125 10 10 10 ∧ gridDistance 125 10 10 10 ≤ 100 + 30 ∧
    checkZone gridDistance none 125 10 (["z1"], []) scenarioZone = (["z1"], []) ∧
    (onPosition gridDistance none
        { unsafeZones := [{ name := "home", lat := 500, lng := 10, radius := 100 }, scenarioZone],
          alertedZones := ["z1"] } 125 10).1.alertedZones = ["z1"] :=
  ⟨by decide, by decide,
   (band_changes_nothing gridDistance none 125 10 scenarioZone (by decide) (by decide)
     (by decide)).1 (["z1"], []) (by decide),
   by decide⟩

/-! ## Claims on the evaluation pass -/

/-- C10: the alerted state is keyed on the zone name. For two zones `z1`, `z2` with the
same name (radii numbers other than `0`): when the check of `z1` raises an alert, the
name of `z2` is in `alertedZones` afterwards; while that name is in `alertedZones`, the
check of `z2` on a sample inside `z2` raises no alert and changes nothing; and the check
of `z2` on a sample farther than `radius + 30` from `z2` removes the name, so that
neither `z1` nor `z2` is alerted afterwards. In a pass over `[z1, z2]` with nothing
alerted and a sample inside both, only `z1` alerts. Across samples, for any zone list
whose zones of that name are `z1` then `z2`: after a sample inside `z1` (and within
`radius + 30` of `z2`) has raised the alert of `z1`, the name is in `alertedZones`, and
the next sample, inside `z2` (and within `radius + 30` of `z1`), raises no alert and
leaves the name in `alertedZones`; and when the name is in `alertedZones`, a sample
outside both zones and farther than `radius + 30` from either of them ends with the
name absent from `alertedZones`, after one clearing. -/
theorem alert_keyed_on_name {α : Type} [LinearOrderedCommRing α]
    (dist : α → α → α → α → α) (ri : Option Int) (uLat uLng : α) (z1 z2 : Zone α)
    (hname : z1.name = z2.name) (hr1 : z1.radius ≠ 0) (hr2 : z2.radius ≠ 0)
    (acc : List String × List (Event α)) :
    (z1.name ∉ acc.1 → dist uLat uLng z1.lat z1.lng ≤ z1.radius →
      (checkZone dist ri uLat uLng acc z1).2 =
        acc.2 ++ [Event.alert z1 (dist uLat uLng z1.lat z1.lng)] ∧
      z2.name ∈ (checkZone dist ri uLat uLng acc z1).1) ∧
    (z1.name ∈ acc.1 → dist uLat uLng z2.lat z2.lng ≤ z2.radius →
      checkZone dist ri uLat uLng acc z2 = acc) ∧
    (z1.name ∈ acc.1 → dist uLat uLng z2.lat z2.lng > z2.radius + 30 →
      (checkZone dist ri uLat uLng acc z2).2 = acc.2 ++ [Event.cleared z2] ∧
      z1.name ∉ (checkZone dist ri uLat uLng acc z2).1 ∧
      z2.name ∉ (checkZone dist ri uLat uLng acc z2).1) ∧
    (dist uLat uLng z1.lat z1.lng ≤ z1.radius → dist uLat uLng z2.lat z2.lng ≤ z2.radius →
      (onPosition dist ri { unsafeZones := [z1, z2], alertedZones := [] } uLat uLng).2 =
        [Event.alert z1 (dist uLat uLng z1.lat z1.lng)]) ∧
    (∀ (zs : List (Zone α)) (al : List String) (p q : α × α),
      zs.filter (fun y => y.name = z1.name) = [z1, z2] →
      z1.name ∉ al →
      dist p.1 p.2 z1.lat z1.lng ≤ z1.radius →
      dist p.1 p.2 z2.lat z2.lng ≤ z2.radius + 30 →
      dist q.1 q.2 z2.lat z2.lng ≤ z2.radius →
      dist q.1 q.2 z1.lat z1.lng ≤ z1.radius + 30 →
      z2.name ∈ (onPosition dist ri { unsafeZones := zs, alertedZones := al }
        p.1 p.2).1.alertedZones ∧
      z2.name ∈ (onPositions dist ri { unsafeZones := zs, alertedZones := al }
        [p, q]).1.alertedZones ∧
      (onPositions dist ri { unsafeZones := zs, alertedZones := al }
        [p, q]).2.map (nameEvents z1.name) =
        [[Event.alert z1 (dist p.1 p.2 z1.lat z1.lng)], []]) ∧
    (∀ (zs : List (Zone α)) (al : List String) (p : α × α),
      zs.filter (fun y => y.name = z1.name) = [z1, z2] →
      z1.name ∈ al →
      dist p.1 p.2 z1.lat z1.lng > z1.radius →
      dist p.1 p.2 z2.lat z2.lng > z2.radius →
      (dist p.1 p.2 z1.lat z1.lng > z1.radius + 30 ∨
        dist p.1 p.2 z2.lat z2.lng > z2.radius + 30) →
      z1.name ∉ (onPosition dist ri { unsafeZones := zs, alertedZones := al }
        p.1 p.2).1.alertedZones ∧
      z2.name ∉ (onPosition dist ri { unsafeZones := zs, alertedZones := al }
        p.1 p.2).1.alertedZones ∧
      nameEvents z1.name (onPosition dist ri { unsafeZones := zs, alertedZones := al }
        p.1 p.2).2 =
        [Event.cleared (if dist p.1 p.2 z1.lat z1.lng > z1.radius + 30 then z1 else z2)]) := by
  have ht1 : radiusOrDefault (some z1.radius) ri = z1.radius :=
    radiusOrDefault_of_ne_zero z1.radius ri hr1
  have ht2 : radiusOrDefault (some z2.radius) ri = z2.radius :=
    radiusOrDefault_of_ne_zero z2.radius ri hr2
  refine ⟨?_, ?_, ?_, ?_, ?_, ?_⟩
  · intro hn hd
    rw [checkZone_enter dist ri uLat uLng acc z1 (by rw [ht1]; exact hd) hn]
    exact ⟨rfl, by simp [hname]⟩
  · intro hn hd
    exact checkZone_linger dist ri uLat uLng acc z2 (by rw [ht2]; exact hd) (hname ▸ hn)
  · intro hn hd
    rw [checkZone_exit dist ri uLat uLng acc z2 (by rw [ht2]; exact hd) (hname ▸ hn)]
    refine ⟨rfl, ?_, ?_⟩
    · rw [hname]; simp
    · simp
  · intro hd1 hd2
    have e1 := checkZone_enter dist ri uLat uLng ([], []) z1 (by rw [ht1]; exact hd1) (by simp)
    simp only [onPosition, checkZones, List.foldl_cons, List.foldl_nil, e1]
    rw [checkZone_linger dist ri uLat uLng _ z2 (by rw [ht2]; exact hd2) (by simp [hname])]
    simp
  · intro zs al p q hz hal hp1 hp2 hq2 hq1
    -- first pass: `z1` alerts, `z2` changes nothing
    have f1 : [z1, z2].foldl (checkZone dist ri p.1 p.2) (al, []) =
        (al ++ [z1.name], [Event.alert z1 (dist p.1 p.2 z1.lat z1.lng)]) := by
      have e1 := checkZone_enter dist ri p.1 p.2 (al, []) z1 (by rw [ht1]; exact hp1) hal
      simp only [List.foldl_cons, List.foldl_nil, e1]
      rw [checkZone_within dist ri p.1 p.2 _ z2 (by rw [ht2]; exact hp2) (by simp [hname])]
      simp
    have o1 := onPosition_filter dist ri { unsafeZones := zs, alertedZones := al }
      z1.name [z1, z2] p.1 p.2 hz
    rw [f1] at o1
    have m1 : z1.name ∈ (onPosition dist ri { unsafeZones := zs, alertedZones := al }
        p.1 p.2).1.alertedZones := o1.2.1.2 (by simp)
    -- second pass: nothing changes
    have hz2 : (onPosition dist ri { unsafeZones := zs, alertedZones := al }
        p.1 p.2).1.unsafeZones.filter (fun y => y.name = z1.name) = [z1, z2] := by
      rw [o1.1]; exact hz
    have o2 := onPosition_filter dist ri
      (onPosition dist ri { unsafeZones := zs, alertedZones := al } p.1 p.2).1
      z1.name [z1, z2] q.1 q.2 hz2
    have f2 : [z1, z2].foldl (checkZone dist ri q.1 q.2)
        ((onPosition dist ri { unsafeZones := zs, alertedZones := al }
          p.1 p.2).1.alertedZones, []) =
        ((onPosition dist ri { unsafeZones := zs, alertedZones := al }
          p.1 p.2).1.alertedZones, []) := by
      simp only [List.foldl_cons, List.foldl_nil]
      rw [checkZone_within dist ri q.1 q.2
        ((onPosition dist ri { unsafeZones := zs, alertedZones := al }
          p.1 p.2).1.alertedZones, []) z1 (by rw [ht1]; exact hq1) m1]
      exact checkZone_linger dist ri q.1 q.2
        ((onPosition dist ri { unsafeZones := zs, alertedZones := al }
          p.1 p.2).1.alertedZones, []) z2 (by rw [ht2]; exact hq2) (hname ▸ m1)
    rw [f2] at o2
    refine ⟨hname ▸ m1, ?_, ?_⟩
    · have := o2.2.1.2 m1
      simpa [onPositions, ← hname] using this
    · have h1 := o1.2.2
      have h2 := o2.2.2
      simp only [nameEvents, List.filter_nil] at h2
      simp only [onPositions, List.map_cons, List.map_nil, h1]
      have h3 : nameEvents z1.name [Event.alert z1 (dist p.1 p.2 z1.lat z1.lng)] =
          [Event.alert z1 (dist p.1 p.2 z1.lat z1.lng)] := by
        simp [nameEvents, Event.zone]
      rw [h3]
      simp only [nameEvents]
      rw [h2]
  · intro zs al p hz hal hp1 hp2 hfar
    have o := onPosition_filter dist ri { unsafeZones := zs, alertedZones := al }
      z1.name [z1, z2] p.1 p.2 hz
    have hgone : z1.name ∉ al.filter (fun n => n ≠ z1.name) := by simp
    by_cases h1 : dist p.1 p.2 z1.lat z1.lng > z1.radius + 30
    · have e1 := checkZone_exit dist ri p.1 p.2 (al, []) z1 (by rw [ht1]; exact h1) hal
      have f : [z1, z2].foldl (checkZone dist ri p.1 p.2) (al, []) =
          (al.filter (fun n => n ≠ z1.name), [Event.cleared z1]) := by
        simp only [List.foldl_cons, List.foldl_nil, e1]
        rw [checkZone_away dist ri p.1 p.2 _ z2 (by rw [ht2]; exact hp2)
          (by rw [← hname]; exact hgone)]
        simp
      rw [f] at o
      have hm : z1.name ∉ (onPosition dist ri { unsafeZones := zs, alertedZones := al }
          p.1 p.2).1.alertedZones := fun hin => hgone (o.2.1.1 hin)
      refine ⟨hm, hname ▸ hm, ?_⟩
      rw [o.2.2, if_pos h1]
      simp [nameEvents, Event.zone]
    · have h2 : dist p.1 p.2 z2.lat z2.lng > z2.radius + 30 := by
        rcases hfar with h | h
        · exact absurd h h1
        · exact h
      have f : [z1, z2].foldl (checkZone dist ri p.1 p.2) (al, []) =
          (al.filter (fun n => n ≠ z2.name), [Event.cleared z2]) := by
        simp only [List.foldl_cons, List.foldl_nil]
        rw [checkZone_band dist ri p.1 p.2 _ z1 (by rw [ht1]; exact hp1)
          (by rw [ht1]; exact not_lt.1 h1)]
        rw [checkZone_exit dist ri p.1 p.2 (al, []) z2 (by rw [ht2]; exact h2)
          (hname ▸ hal)]
        simp
      rw [f] at o
      have hm : z1.name ∉ (onPosition dist ri { unsafeZones := zs, alertedZones := al }
          p.1 p.2).1.alertedZones := by
        intro hin
        have := o.2.1.1 hin
        rw [← hname] at this
        exact hgone this
      refine ⟨hm, hname ▸ hm, ?_⟩
      rw [o.2.2, if_neg h1]
      simp [nameEvents, Event.zone, hname]

/-- Witness of C10 on integer coordinates: two zones called `Zone`, 20 apart. -/
theorem alert_keyed_on_name_witness :
    (onPosition gridDistance none
        { unsafeZones := [{ name := "Zone", lat := 0, lng := 0, radius := 100 },
                          { name := "Zone", lat := 20, lng := 0, radius := 100 }],
          alertedZones := [] } 5 0).2 =
      [Event.alert ({ name := "Zone", lat := 0, lng := 0, radius := 100 } : Zone Int) 5] ∧
    checkZone gridDistance none 5 0 (["Zone"], [])
        { name := "Zone", lat := 20, lng := 0, radius := 100 } = (["Zone"], []) ∧
    "Zone" ∈ (onPositions gridDistance none
        { unsafeZones := [firstZone, homeZone, secondZone], alertedZones := [] }
        [(5, 0), (15, 0)]).1.alertedZones ∧
    (onPositions gridDistance none
        { unsafeZones := [firstZone, homeZone, secondZone], alertedZones := [] }
        [(5, 0), (15, 0)]).2.map (nameEvents "Zone") = [[Event.alert firstZone 5], []] ∧
    "Zone" ∉ (onPosition gridDistance none
        { unsafeZones := [firstZone, homeZone, secondZone], alertedZones := ["Zone"] }
        500 0).1.alertedZones :=
  ⟨(alert_keyed_on_name gridDistance none 5 0
      { name := "Zone", lat := 0, lng := 0, radius := 100 }
      { name := "Zone", lat := 20, lng := 0, radius := 100 }
      (by decide) (by decide) (by decide) ([], [])).2.2.2.1 (by decide) (by decide),
   (alert_keyed_on_name gridDistance none 5 0
      { name := "Zone", lat := 0, lng := 0, radius := 100 }
      { name := "Zone", lat := 20, lng := 0, radius := 100 }
      (by decide) (by decide) (by decide) (["Zone"], [])).2.1 (by decide) (by decide),
   ((alert_keyed_on_name gridDistance none 0 0 firstZone secondZone
      (by decide) (by decide) (by decide) ([], [])).2.2.2.2.1
      [firstZone, homeZone, secondZone] [] (5, 0) (15, 0)
      (by decide) (by decide) (by decide) (by decide) (by decide) (by decide)).2.1,
   ((alert_keyed_on_name gridDistance none 0 0 firstZone secondZone
      (by decide) (by decide) (by decide) ([], [])).2.2.2.2.1
      [firstZone, homeZone, secondZone] [] (5, 0) (15, 0)
      (by decide) (by decide) (by decide) (by decide) (by decide) (by decide)).2.2,
   ((alert_keyed_on_name gridDistance none 0 0 firstZone secondZone
      (by decide) (by decide) (by decide) ([], [])).2.2.2.2.2
      [firstZone, homeZone, secondZone] ["Zone"] (500, 0)
      (by decide) (by decide) (by decide) (by decide) (by decide)).1⟩

theorem watchCallback_near_far (al : List String) (h : "Zone" ∉ al) :
    watchCallback none { unsafeZones := [nearZone, farZone], alertedZones := al } 0 0 =
      ({ unsafeZones := [nearZone, farZone],
         alertedZones := (al ++ ["Zone"]).filter (fun n => n ≠ "Zone") },
       [Event.alert nearZone 0, Event.cleared farZone]) := by
  have hpi := Real.pi_gt_three
  have d1 : getDistance 0 0 nearZone.lat nearZone.lng = 0 := getDistance_same 0 0
  have d2 : getDistance 0 0 farZone.lat farZone.lng = 6371000 * Real.pi :=
    getDistance_antipode
  have t1 : radiusOrDefault (some nearZone.radius) none = 100 := by
    simp [radiusOrDefault, nearZone]
  have t2 : radiusOrDefault (some farZone.radius) none = 100 := by
    simp [radiusOrDefault, farZone]
  have e1 := checkZone_enter getDistance none 0 0 (al, []) nearZone
    (by rw [d1, t1]; norm_num) (by simpa [nearZone] using h)
  have e2 := checkZone_exit getDistance none 0 0
    (al ++ [nearZone.name], [] ++ [Event.alert nearZone (getDistance 0 0 nearZone.lat nearZone.lng)])
    farZone (by rw [d2, t2]; nlinarith) (by simp [nearZone, farZone])
  simp only [watchCallback, onPosition, checkZones, List.foldl_cons, List.foldl_nil, e1, e2]
  rw [d1]
  simp [nearZone, farZone]

/-- C1, evaluation of the code where it differs from the claim: two zones called
`Zone`, the sample at the centre of the first and far from the second, nothing alerted.
Each of two passes in a row on that sample raises an alert for the first zone. -/
theorem repeated_alert_with_shared_name :
    getDistance 0 0 nearZone.lat nearZone.lng ≤ nearZone.radius ∧
    (watchCallback none { unsafeZones := [nearZone, farZone], alertedZones := [] } 0 0).2 =
      [Event.alert nearZone 0, Event.cleared farZone] ∧
    (watchCallback none
      (watchCallback none { unsafeZones := [nearZone, farZone], alertedZones := [] } 0 0).1
      0 0).2 = [Event.alert nearZone 0, Event.cleared farZone] := by
  have h0 := watchCallback_near_far [] (by simp)
  have hal : (([] : List String) ++ ["Zone"]).filter (fun n => n ≠ "Zone") = [] := by decide
  rw [hal] at h0
  refine ⟨?_, ?_, ?_⟩
  · have d1 : getDistance 0 0 nearZone.lat nearZone.lng = 0 := getDistance_same 0 0
    rw [d1]
    simp [nearZone]
  · rw [h0]
  · rw [h0]
    exact congrArg Prod.snd h0

/-- C6, evaluation of the code where it differs from the claim: with two zones called
`Zone`, the sample at the centre of the first and far from the second, nothing alerted,
the pass clears the name on behalf of the second zone, so the first zone is not alerted
after the pass although alone in the list it is; the machine run on each zone
separately gives one alert and no clearing. -/
theorem pass_depends_on_other_zone :
    specPassEvents getDistance none 0 0 [nearZone, farZone] [] =
      [Event.alert nearZone 0] ∧
    (watchCallback none { unsafeZones := [nearZone, farZone], alertedZones := [] } 0 0).2 ≠
      specPassEvents getDistance none 0 0 [nearZone, farZone] [] ∧
    nearZone.name ∈
      (watchCallback none { unsafeZones := [nearZone], alertedZones := [] } 0 0).1.alertedZones ∧
    nearZone.name ∉
      (watchCallback none { unsafeZones := [nearZone, farZone], alertedZones := [] }
        0 0).1.alertedZones := by
  have hpi := Real.pi_gt_three
  have h0 := watchCallback_near_far [] (by simp)
  have hal : (([] : List String) ++ ["Zone"]).filter (fun n => n ≠ "Zone") = [] := by decide
  rw [hal] at h0
  have d1 : getDistance 0 0 nearZone.lat nearZone.lng = 0 := getDistance_same 0 0
  have d2 : getDistance 0 0 farZone.lat farZone.lng = 6371000 * Real.pi :=
    getDistance_antipode
  have t1 : radiusOrDefault (some nearZone.radius) none = 100 := by
    simp [radiusOrDefault, nearZone]
  have t2 : radiusOrDefault (some farZone.radius) none = 100 := by
    simp [radiusOrDefault, farZone]
  have hfar : ¬ (6371000 * Real.pi ≤ 100) := by
    intro hle
    nlinarith
  have hspec : specPassEvents getDistance none 0 0 [nearZone, farZone] [] =
      [Event.alert nearZone 0] := by
    simp [specPassEvents, specZoneStep, d1, d2, t1, t2, hfar]
  have e1 := checkZone_enter getDistance none 0 0 ([], []) nearZone
    (by rw [d1, t1]; norm_num) (by simp)
  refine ⟨hspec, ?_, ?_, ?_⟩
  · rw [h0, hspec]
    simp
  · simp only [watchCallback, onPosition, checkZones, List.foldl_cons, List.foldl_nil, e1]
    simp
  · rw [h0]
    simp

/-- C2, evaluation of the code where it differs from the claim: two zones called
`Zone`, radius 100, the first at `(0, 0)`, the second at `(0, 180)`, nothing alerted.
The samples `(0, 0)`, `(0, 180)`, `(0, 0)` enter the first zone, move farther than
`radius + 30` from it and re-enter it. The re-entry raises no alert for the first zone,
because the second zone has put the shared name back in `alertedZones`, and the move
away gives no clearing on behalf of the first zone. With the zones in the other order,
two samples in a row at the centre of the zone at `(0, 0)` clear the name and raise
its alert again although no sample left that zone. -/
theorem shared_name_breaks_rearm :
    getDistance 0 0 nearZone.lat nearZone.lng ≤ nearZone.radius ∧
    getDistance 0 180 nearZone.lat nearZone.lng > nearZone.radius + 30 ∧
    onPositions getDistance none { unsafeZones := [nearZone, farZone], alertedZones := [] }
        [(0, 0), (0, 180), (0, 0)] =
      ({ unsafeZones := [nearZone, farZone], alertedZones := [] },
       [[Event.alert nearZone 0, Event.cleared farZone], [Event.alert farZone 0],
        [Event.cleared farZone]]) ∧
    onPositions getDistance none { unsafeZones := [farZone, nearZone], alertedZones := [] }
        [(0, 0), (0, 0)] =
      ({ unsafeZones := [farZone, nearZone], alertedZones := ["Zone"] },
       [[Event.alert nearZone 0], [Event.cleared farZone, Event.alert nearZone 0]]) := by
  have hpi := Real.pi_gt_three
  have h180 : getDistance 0 180 0 0 = 6371000 * Real.pi := by
    rw [getDistance_comm, getDistance_antipode]
  have hfar1 : ¬ (6371000 * Real.pi ≤ 100) := by
    intro hle
    nlinarith
  have hfar2 : (100 : ℝ) + 30 < 6371000 * Real.pi := by nlinarith
  have hfar3 : (130 : ℝ) < 6371000 * Real.pi := by nlinarith
  refine ⟨?_, ?_, ?_, ?_⟩
  · simp [nearZone, getDistance_same]
  · simp only [nearZone, h180]
    exact hfar2
  · simp [onPositions, onPosition, checkZones, checkZone, showAlert, radiusOrDefault,
      nearZone, farZone, getDistance_same, getDistance_antipode, h180, hfar1, hfar2, hfar3]
  · simp [onPositions, onPosition, checkZones, checkZone, showAlert, radiusOrDefault,
      nearZone, farZone, getDistance_same, getDistance_antipode, h180, hfar1, hfar2, hfar3]

/-- C3, evaluation of the code where it differs from the claim: two zones called
`Zone`, radius 100, at `(0, 0)` and `(0, 180)`, the name alerted, and a sample at
`(0, 0.001)`, which is `6371 * π / 180` (about 111) metres from the first zone, between
its radius and its radius plus 30. The pass deletes the name on behalf of the second
zone, so the alerted state of the first zone does not stay set. -/
theorem shared_name_clears_in_band :
    nearZone.radius < getDistance 0 0.001 nearZone.lat nearZone.lng ∧
    getDistance 0 0.001 nearZone.lat nearZone.lng ≤ nearZone.radius + 30 ∧
    watchCallback none { unsafeZones := [nearZone, farZone], alertedZones := ["Zone"] }
        0 0.001 =
      ({ unsafeZones := [nearZone, farZone], alertedZones := [] },
       [Event.cleared farZone]) := by
  have hpi := Real.pi_gt_d2
  have hpi2 := Real.pi_lt_d2
  have d1 : getDistance 0 0.001 nearZone.lat nearZone.lng = 6371 * Real.pi / 180 :=
    getDistance_band_sample
  have d2 : getDistance 0 0.001 farZone.lat farZone.lng =
      6371000 * (Real.pi - 0.001 * Real.pi / 180) := getDistance_band_sample_far
  have t1 : radiusOrDefault (some nearZone.radius) none = 100 := by
    simp [radiusOrDefault, nearZone]
  have t2 : radiusOrDefault (some farZone.radius) none = 100 := by
    simp [radiusOrDefault, farZone]
  have b1 : (100 : ℝ) < 6371 * Real.pi / 180 := by
    norm_num at hpi
    linarith
  have b2 : 6371 * Real.pi / 180 ≤ (100 : ℝ) + 30 := by
    norm_num at hpi2
    linarith
  have b3 : (100 : ℝ) + 30 < 6371000 * (Real.pi - 0.001 * Real.pi / 180) := by
    norm_num at hpi
    nlinarith
  have e1 := checkZone_band getDistance none 0 0.001 (["Zone"], []) nearZone
    (by rw [d1, t1]; exact b1) (by rw [d1, t1]; exact b2)
  have e2 := checkZone_exit getDistance none 0 0.001 (["Zone"], []) farZone
    (by rw [d2, t2]; exact b3) (by simp [farZone])
  refine ⟨?_, ?_, ?_⟩
  · rw [d1]
    simpa [nearZone] using b1
  · rw [d1]
    simpa [nearZone] using b2
  · simp only [watchCallback, onPosition, checkZones, List.foldl_cons, List.foldl_nil, e1, e2]
    simp [farZone]

/-! ## Claims on the zone store -/

/-- C4, counterexample: `addZone` with radius `-5` while the radius input reads 200
stores the radius `-5`, which is neither the default nor positive. -/
theorem addZone_keeps_negative_radius :
    (-5 : Int) ≤ 0 ∧
    (addZone (some 200) (initial []) "A" 0 0 (some (-5))).unsafeZones =
      [{ name := "A", lat := 0, lng := 0, radius := (-5 : Int) }] ∧
    radiusOrDefault (none : Option Int) (some 200) = 200 ∧
    ¬ (∀ z ∈ (addZone (some 200) (initial []) "A" 0 0 (some (-5 : Int))).unsafeZones,
        z.radius = radiusOrDefault none (some 200) ∧ 0 < z.radius) := by
  decide

/-- C4, amended: `addZone` appends one zone whose radius is
`radius || parseInt(radiusInput.value) || 150`. When the radius is `0` or omitted, this
is the configured default (the parsed radius input when it is a number other than `0`,
else 150); a positive radius is stored as given. The stored radius is never `0`, and it
is positive when the given radius is positive, or is `0` or omitted while the parsed
radius input is not a negative number. -/
theorem addZone_stores_default_for_zero {α : Type} [LinearOrderedCommRing α]
    (ri : Option Int) (s : App α) (name : String) (lat lng : α) (radius : Option α) :
    (addZone ri s name lat lng radius).unsafeZones =
      s.unsafeZones ++
        [{ name := name, lat := lat, lng := lng, radius := radiusOrDefault radius ri }] ∧
    ((radius = none ∨ radius = some 0) →
      radiusOrDefault radius ri =
        (match ri with
         | some n => if n ≠ 0 then (n : α) else 150
         | none => 150)) ∧
    (∀ r : α, radius = some r → 0 < r →
      radiusOrDefault radius ri = r ∧ 0 < radiusOrDefault radius ri) ∧
    radiusOrDefault radius ri ≠ 0 ∧
    ((radius = none ∨ radius = some 0) → (∀ n : Int, ri = some n → 0 ≤ n) →
      0 < radiusOrDefault radius ri) := by
  have hdef : (radius = none ∨ radius = some 0) →
      radiusOrDefault radius ri =
        (match ri with
         | some n => if n ≠ 0 then (n : α) else 150
         | none => 150) := by
    rintro (h | h) <;> subst h <;> simp [radiusOrDefault]
  refine ⟨rfl, hdef, ?_, radiusOrDefault_ne_zero radius ri, ?_⟩
  · intro r h hr
    subst h
    have e := radiusOrDefault_of_ne_zero r ri (ne_of_gt hr)
    exact ⟨e, by rw [e]; exact hr⟩
  · intro h hri
    rw [hdef h]
    cases ri with
    | none => norm_num
    | some n =>
      by_cases hn : n = 0
      · simp [hn]
      · have h0 : 0 ≤ n := hri n rfl
        have hpos : 0 < n := lt_of_le_of_ne h0 (fun e => hn e.symm)
        simp only [ne_eq, hn, not_false_eq_true, if_true]
        exact_mod_cast hpos

/-- Witness of C4 amended: radius `0` with the radius input reading 200, and radius `0`
with an unreadable radius input. -/
theorem addZone_stores_default_for_zero_witness :
    (addZone (some 200) (initial []) "A" 1 2 (some (0 : Int))).unsafeZones =
      [{ name := "A", lat := 1, lng := 2, radius := 200 }] ∧
    radiusOrDefault (some (0 : Int)) none = 150 ∧
    radiusOrDefault (some (75 : Int)) (some 200) = 75 ∧
    (0 : Int) < radiusOrDefault (some 0) (some 200) :=
  ⟨(addZone_stores_default_for_zero (some 200) (initial []) "A" 1 2 (some (0 : Int))).1,
   (addZone_stores_default_for_zero none (initial []) "A" 1 2 (some (0 : Int))).2.1
     (Or.inr rfl),
   ((addZone_stores_default_for_zero (some 200) (initial []) "A" 1 2 (some (75 : Int))).2.2.1
     75 rfl (by decide)).1,
   (addZone_stores_default_for_zero (some 200) (initial []) "A" 1 2 (some (0 : Int))).2.2.2.2
     (Or.inr rfl) (by intro n h; cases h; decide)⟩

/-- C5, counterexample: add a zone, take a sample at its centre, clear all zones (or
delete the zone), take another sample. After this last pass `alertedZones` still holds
the name of the zone while `unsafeZones` is empty. -/
theorem stale_name_after_clear :
    run gridDistance (initial [])
        [Action.addZone none "A" 0 0 none, Action.position none 0 0, Action.clearZones,
         Action.position none 0 0] =
      { unsafeZones := [], alertedZones := ["A"] } ∧
    ¬ NamesKnown (run gridDistance (initial [])
        [Action.addZone none "A" 0 0 none, Action.position none 0 0, Action.clearZones,
         Action.position none 0 0]) ∧
    run gridDistance (initial [])
        [Action.addZone none "A" 0 0 none, Action.position none 0 0, Action.deleteZone 0,
         Action.position none 0 0] =
      { unsafeZones := [], alertedZones := ["A"] } ∧
    ¬ NamesKnown (run gridDistance (initial [])
        [Action.addZone none "A" 0 0 none, Action.position none 0 0, Action.deleteZone 0,
         Action.position none 0 0]) := by
  decide

/-- C5, amended: in every state reached from the load-time state by any interleaving of
`addZone`, single-zone delete, clear-all and evaluation passes in which no delete or
clear-all removes the last zone carrying a name that is in `alertedZones` at that
moment, every name in `alertedZones` is the name of a zone in `unsafeZones`. From a
state in which this holds, one action keeps it exactly when it is not such a removal:
`addZone` and evaluation passes always keep it. -/
theorem alerted_names_known_unless_alerted_zone_removed {α : Type}
    [LinearOrderedCommRing α] (dist : α → α → α → α → α) :
    (∀ (zones : List (Zone α)) (acts : List (Action α)),
      removalsKeepAlertedNames dist (initial zones) acts = true →
      NamesKnown (run dist (initial zones) acts)) ∧
    (∀ (s : App α) (a : Action α), NamesKnown s →
      (NamesKnown (step dist s a) ↔ keepsAlertedNames s a = true)) ∧
    (∀ (s : App α) (ri : Option Int) (uLat uLng : α), NamesKnown s →
      NamesKnown (onPosition dist ri s uLat uLng).1) := by
  refine ⟨?_, ?_, ?_⟩
  · intro zones acts h
    exact run_namesKnown dist acts (initial zones) h (by intro n hn; simp [initial] at hn)
  · intro s a hs
    exact step_namesKnown_iff dist s a hs
  · intro s ri uLat uLng hs
    exact onPosition_namesKnown dist ri s uLat uLng hs

/-- Witness of C5 amended: a stored zone alerts, a second zone `B` is added and alerts,
a zone `C` that has not alerted is deleted, a second zone called `B` is added and the
first `B` is deleted; the last action is a pass. -/
theorem alerted_names_known_unless_alerted_zone_removed_witness :
    run gridDistance (initial [scenarioZone])
      [Action.position none 10 10, Action.addZone (some 50) "B" 0 0 none,
       Action.addZone none "C" 900 900 none, Action.position none 0 0,
       Action.deleteZone 2, Action.addZone none "B" 5 5 none, Action.deleteZone 1,
       Action.position none 0 0] =
      { unsafeZones := [scenarioZone, { name := "B", lat := 5, lng := 5, radius := 150 }],
        alertedZones := ["z1", "B"] } ∧
    NamesKnown (run gridDistance (initial [scenarioZone])
      [Action.position none 10 10, Action.addZone (some 50) "B" 0 0 none,
       Action.addZone none "C" 900 900 none, Action.position none 0 0,
       Action.deleteZone 2, Action.addZone none "B" 5 5 none, Action.deleteZone 1,
       Action.position none 0 0]) ∧
    (NamesKnown (step gridDistance
        ({ unsafeZones := [scenarioZone], alertedZones := ["z1"] } : App Int)
        (Action.deleteZone 0)) ↔
      keepsAlertedNames ({ unsafeZones := [scenarioZone], alertedZones := ["z1"] } : App Int)
        (Action.deleteZone 0) = true) :=
  ⟨by decide,
   (alerted_names_known_unless_alerted_zone_removed gridDistance).1 [scenarioZone]
     [Action.position none 10 10, Action.addZone (some 50) "B" 0 0 none,
      Action.addZone none "C" 900 900 none, Action.position none 0 0,
      Action.deleteZone 2, Action.addZone none "B" 5 5 none, Action.deleteZone 1,
      Action.position none 0 0] (by decide),
   (alerted_names_known_unless_alerted_zone_removed gridDistance).2.1
     { unsafeZones := [scenarioZone], alertedZones := ["z1"] } (Action.deleteZone 0)
     (by decide)⟩

end SafeWay
